import Mathlib

/-!
Shallow embedding of `threatconnect-report.py`, the ThreatConnect reporting
module for Cuckoo 1.2, together with proofs about its behaviour.

The module walks a nested analysis-result mapping and publishes an incident
plus indicators to a remote ThreatConnect client.  We embed:

* Python values as the inductive type `PyVal` (the shapes this program
  manipulates: `None`, strings, integers, lists, string-keyed dicts, and
  caught exception objects);
* Python exceptions as `PyExc`;
* each fallible primitive (`dict.get`, iteration, `re.sub`, `re.search`,
  slicing, `ipaddress.ip_address`) as a function into `Except PyExc _`;
* the remote client as a trace of `Event`s plus a commit oracle
  `Nat → Option String` deciding, for the n-th commit issued, whether it
  succeeds (`none`) or raises `RuntimeError msg` (`some msg`);
* every method of `ThreatConnectReport` as an explicit state-passing
  function `RunState → Except PyExc α × RunState`, so the emitted trace is
  observable even when an exception escapes.
-/

/-- Python exception values, carrying their message. -/
inductive PyExc where
  | runtimeError (msg : String)
  | cuckooReportError (msg : String)
  | typeError (msg : String)
  | attributeError (msg : String)
  | unboundLocalError (msg : String)
  | valueError (msg : String)
deriving DecidableEq, Repr

/-- Python values as manipulated by this program: `None`, `str`, `int`,
`list`, string-keyed `dict` (association list, first binding wins), and a
caught exception object (the `e` bound by an `except ... as e`). -/
inductive PyVal where
  | none : PyVal
  | str : String → PyVal
  | int : Int → PyVal
  | list : List PyVal → PyVal
  | dict : List (String × PyVal) → PyVal
  | exc : PyExc → PyVal

/-- Python type name of a value, as used in error messages. -/
def pyTypeName : PyVal → String
  | .none => "NoneType"
  | .str _ => "str"
  | .int _ => "int"
  | .list _ => "list"
  | .dict _ => "dict"
  | .exc _ => "RuntimeError"

/-- Message of a Python exception, i.e. `str(e)`. -/
def PyExc.message : PyExc → String
  | .runtimeError m => m
  | .cuckooReportError m => m
  | .typeError m => m
  | .attributeError m => m
  | .unboundLocalError m => m
  | .valueError m => m

/-- Python `str(v)` for the values this program formats into messages and
titles.  Containers are rendered with a best-effort shallow form; the
program only ever formats scalars (filenames, ids, exception messages). -/
def pyStr : PyVal → String
  | .none => "None"
  | .str s => s
  | .int n => toString n
  | .list _ => "[...]"
  | .dict _ => "\x7b...\x7d"
  | .exc e => e.message

/-- Python truthiness of a value. -/
def truthy : PyVal → Bool
  | .none => false
  | .str s => s ≠ ""
  | .int n => n ≠ 0
  | .list l => !l.isEmpty
  | .dict d => !d.isEmpty
  | .exc _ => true

/-- Lookup of a key in an association list (first binding wins). -/
def alistLookup (key : String) : List (String × PyVal) → Option PyVal
  | [] => Option.none
  | (k, v) :: rest => if k = key then some v else alistLookup key rest

/-- Python `obj.get(key, default)`: a dict returns the bound value or the
default; any non-dict raises `AttributeError` (there is no `get`
attribute).  `obj.get(key)` is `pyGetD obj key PyVal.none`. -/
def pyGetD (obj : PyVal) (key : String) (dflt : PyVal) : Except PyExc PyVal :=
  match obj with
  | .dict kvs =>
      match alistLookup key kvs with
      | some v => .ok v
      | Option.none => .ok dflt
  | v => .error (.attributeError
      ("'" ++ pyTypeName v ++ "' object has no attribute 'get'"))

/-- Python `obj.get(key)` (default `None`). -/
def pyGet (obj : PyVal) (key : String) : Except PyExc PyVal :=
  pyGetD obj key .none

/-- Python `for x in obj`: lists yield their elements, dicts their keys (as
strings), strings their characters; `None` and `int` are not iterable
(`TypeError`); iterating a caught exception yields its args — modelled as
not iterable, which this program never does. -/
def pyIter : PyVal → Except PyExc (List PyVal)
  | .list xs => .ok xs
  | .dict kvs => .ok (kvs.map (fun kv => .str kv.1))
  | .str s => .ok (s.data.map (fun c => .str (String.mk [c])))
  | v => .error (.typeError ("'" ++ pyTypeName v ++ "' object is not iterable"))

/-- Python `obj[:10]`, as used for `started[:10]`: strings and lists are
sliced; other types raise `TypeError`. -/
def pySlice10 : PyVal → Except PyExc PyVal
  | .str s => .ok (.str (String.mk (s.data.take 10)))
  | .list xs => .ok (.list (xs.take 10))
  | v => .error (.typeError ("'" ++ pyTypeName v ++ "' object is not subscriptable"))

/-- Whether `pat` is an initial segment of the character list. -/
def isPrefixChars : List Char → List Char → Bool
  | [], _ => true
  | _ :: _, [] => false
  | p :: ps, c :: cs => p = c && isPrefixChars ps cs

/-- Whether `pat` occurs anywhere in the character list. -/
def listContains (pat : List Char) : List Char → Bool
  | [] => pat.isEmpty
  | c :: rest => isPrefixChars pat (c :: rest) || listContains pat rest

/-- Whether `pat` occurs as a substring of `s`. -/
def containsSubstr (pat s : String) : Bool :=
  listContains pat.data s.data

/-- Python `re.search(pattern, obj)` for a literal pattern with no
metacharacters: the second argument must be a string (else `TypeError:
expected string or buffer`); on a string it reports whether the pattern
occurs.  The program passes the caught exception object itself here, which
is not a string. -/
def reSearch (pat : String) (obj : PyVal) : Except PyExc Bool :=
  match obj with
  | .str s => .ok (containsSubstr pat s)
  | _ => .error (.typeError "expected string or buffer")

/-- Replace the first occurrence of `pat` in the character list by `repl`. -/
def replaceFirst (pat repl : List Char) : List Char → List Char
  | [] => []
  | c :: rest =>
      if isPrefixChars pat (c :: rest) then repl ++ (c :: rest).drop pat.length
      else c :: replaceFirst pat repl rest

/-- Python `'template'.format(arg)` for a template containing one
`\x7b\x7d` placeholder (the shape the report-link templates take): the
placeholder is replaced by `arg`. -/
def formatOne (template arg : String) : String :=
  String.mk (replaceFirst "\x7b\x7d".data arg.data template.data)

/-- Whether the head of a character list is a decimal digit. -/
def digitHead : List Char → Bool
  | [] => false
  | d :: _ => d.isDigit

/-- Core of Python `re.sub(':\d+', '', s)`: scan left to right; at each
position, if the current character is `:` and the next is a digit, drop the
colon and the maximal run of digits and continue after it; otherwise keep
the character. -/
def stripPortsAux : List Char → List Char
  | [] => []
  | c :: rest =>
      if c = ':' && digitHead rest then stripPortsAux (rest.dropWhile Char.isDigit)
      else c :: stripPortsAux rest
termination_by l => l.length
decreasing_by
  all_goals simp only [List.length_cons]
  · have hlen : ∀ l : List Char, (l.dropWhile Char.isDigit).length ≤ l.length := by
      intro l
      induction l with
      | nil => simp [List.dropWhile]
      | cons a as ih =>
          by_cases hp : Char.isDigit a
          · simp only [List.dropWhile, hp]
            exact Nat.le_succ_of_le ih
          · simp [List.dropWhile, hp]
    exact Nat.lt_succ_of_le (hlen _)
  · omega

/-- Python `re.sub(':\d+', '', s)` on a string. -/
def stripPorts (s : String) : String :=
  String.mk (stripPortsAux s.data)

/-- Whether a character list contains a `:` immediately followed by a
digit, i.e. whether the pattern `:\d+` matches anywhere. -/
def hasColonDigit : List Char → Bool
  | [] => false
  | [_] => false
  | c :: d :: rest => (c = ':' && d.isDigit) || hasColonDigit (d :: rest)

/-- Whether a string ends in `:` followed by one or more digits (a
trailing `:<port>` suffix). -/
def endsWithPort (s : String) : Bool :=
  let r := s.data.reverse
  let ds := r.takeWhile Char.isDigit
  decide (ds ≠ []) && (match r.drop ds.length with
    | ':' :: _ => true
    | _ => false)

/-- Decimal value of a digit string. -/
def decimalValue (cs : List Char) : Nat :=
  cs.foldl (fun a c => a * 10 + (c.toNat - '0'.toNat)) 0

/-- Split a character list on a separator character; like Python's
`str.split(sep)`, the empty input yields one empty piece. -/
def splitOnChar (sep : Char) : List Char → List (List Char)
  | [] => [[]]
  | c :: rest =>
      let r := splitOnChar sep rest
      if c = sep then [] :: r
      else
        match r with
        | [] => [[c]]
        | g :: gs => (c :: g) :: gs

/-- Whether a dotted-quad component is a valid IPv4 octet per the
`ipaddress` module: nonempty, all decimal digits, at most three characters,
value at most 255, and no ambiguous leading zero (a value above 7 written
with a leading `0` is rejected as possibly octal). -/
def validOctet (cs : List Char) : Bool :=
  decide (0 < cs.length) && decide (cs.length ≤ 3) && cs.all Char.isDigit &&
    (let n := decimalValue cs
     decide (n ≤ 255) &&
       !(decide (7 < n) && (match cs with | c :: _ => c = '0' | [] => false)))

/-- Whether a character list is a valid IPv4 literal per
`ipaddress.IPv4Address`: exactly four `.`-separated valid octets. -/
def isIPv4Chars (cs : List Char) : Bool :=
  let parts := splitOnChar '.' cs
  decide (parts.length = 4) && parts.all validOctet

/-- Whether a string is a valid IPv4 literal. -/
def isIPv4 (s : String) : Bool :=
  isIPv4Chars s.data

/-- Whether a character is a hexadecimal digit. -/
def isHexDigit (c : Char) : Bool :=
  c.isDigit || ('a' ≤ c && c ≤ 'f') || ('A' ≤ c && c ≤ 'F')

/-- Whether a character list is a valid IPv6 hextet: one to four hex
digits. -/
def validHextet (cs : List Char) : Bool :=
  decide (0 < cs.length) && decide (cs.length ≤ 4) && cs.all isHexDigit

/-- Whether a string is a valid IPv6 literal, following the `ipaddress`
module's algorithm: split on `:`; require at least three parts; a final
part containing `.` must be a valid IPv4 literal (standing for two
hextets); at most one empty interior part (the `::` compression), with an
empty first or last part only as part of a leading or trailing `::`;
without compression exactly eight hextets, with compression at most seven;
every remaining part must be a valid hextet. -/
def isIPv6 (s : String) : Bool :=
  let parts := splitOnChar ':' s.data
  if parts.length < 3 then false
  else
    let lastPart := parts.getLastD []
    let expanded : Option (List (List Char)) :=
      if lastPart.contains '.' then
        if isIPv4Chars lastPart then some (parts.dropLast ++ [['0'], ['0']])
        else Option.none
      else some parts
    match expanded with
    | Option.none => false
    | some ps =>
      let n := ps.length
      let skips := (List.range n).filter
        (fun i => decide (0 < i) && decide (i + 1 < n) && (ps.getD i ['x']).isEmpty)
      match skips with
      | [] =>
          decide (n = 8) && !(ps.headD ['x']).isEmpty && !(ps.getLastD ['x']).isEmpty &&
            ps.all validHextet
      | [i] =>
          let headEmpty := (ps.headD ['x']).isEmpty
          let lastEmpty := (ps.getLastD ['x']).isEmpty
          let hi := if headEmpty then i - 1 else i
          let lo0 := n - i - 1
          let lo := if lastEmpty then lo0 - 1 else lo0
          (!headEmpty || decide (hi = 0)) && (!lastEmpty || decide (lo = 0)) &&
            decide (hi + lo ≤ 7) &&
            (ps.take hi ++ ps.drop (n - lo)).all validHextet
      | _ => false

/-- Python `ipaddress.ip_address(v)`: accepts a textual IPv4 or IPv6
literal, or an `int` packed address below `2^128`; everything else raises
`ValueError`. -/
def ip_address (v : PyVal) : Except PyExc Unit :=
  match v with
  | .str s =>
      if isIPv4 s || isIPv6 s then .ok ()
      else .error (.valueError
        ("'" ++ s ++ "' does not appear to be an IPv4 or IPv6 address"))
  | .int n =>
      if 0 ≤ n && n < 2 ^ 128 then .ok ()
      else .error (.valueError
        (toString n ++ " does not appear to be an IPv4 or IPv6 address"))
  | w => .error (.valueError
      (pyStr w ++ " does not appear to be an IPv4 or IPv6 address"))

/-- Embedding of the module-level function `ip` (lines 28-35): try
`ipaddress.ip_address(indicator)`; a `ValueError` yields `False`, success
yields `True`; any other exception would propagate. -/
def ip (indicator : PyVal) : Except PyExc Bool :=
  match ip_address indicator with
  | .ok _ => .ok true
  | .error (.valueError _) => .ok false
  | .error e => .error e

/-- Local ThreatConnect incident resource being built before commit. -/
structure IncidentObj where
  title : String
  source : String
  eventDate : Option String
  attributes : List (String × PyVal)
  labels : List (String × String)

/-- Local ThreatConnect indicator resource being built before commit:
primary value, owner source, secondary hashes set via `set_indicator`, the
size, file occurrences `(filename, date)`, and the incident ids it has been
associated with. -/
structure IndicatorObj where
  value : PyVal
  source : String
  secondary : List PyVal
  size : Option PyVal
  occurrences : List (PyVal × String)
  associations : List Int

/-- Observable calls made against the ThreatConnect client.  Commit events
carry a snapshot of the local resource at commit time, and the outcome
(`none` for success, `some msg` for a `RuntimeError msg`). -/
inductive Event where
  | incidentAdd (title source : String)
  | incidentSetEventDate (d : String)
  | incidentAddAttribute (ty : String) (value : PyVal)
  | incidentCommit (obj : IncidentObj) (outcome : Option String)
  | incidentLoadAttributes
  | attributeAddSecurityLabel (attrType label : String)
  | indicatorAdd (value : PyVal) (source : String)
  | indicatorSetIndicator (value : PyVal)
  | indicatorSetSize (value : PyVal)
  | indicatorAddFileOccurrence (name : PyVal) (date : String)
  | indicatorAssociateGroup (resourceType : String) (incidentId : Int)
  | indicatorCommit (obj : IndicatorObj) (outcome : Option String)

/-- State threaded through a run: the trace of client calls so far and the
number of commits issued (the commit oracle is consulted at this index). -/
structure RunState where
  events : List Event
  nCommits : Nat

/-- Configuration and environment of a run: the recognized options plus the
the values the environment supplies (today's date, the current ISO
timestamp, and the id the platform assigns to the committed incident). -/
structure Config where
  target_source : String
  report_link_template : String
  dateToday : String
  nowIso : String
  newIncidentId : Int

/-- Append events to the trace. -/
def addEvents (s : RunState) (evs : List Event) : RunState :=
  { s with events := s.events ++ evs }

/-- Commit an incident: consult the oracle at the current commit index; on
`some msg` the commit raises `RuntimeError msg`. -/
def doCommitIncident (orc : Nat → Option String) (obj : IncidentObj)
    (s : RunState) : Except PyExc Unit × RunState :=
  match orc s.nCommits with
  | Option.none =>
      (.ok (), { events := s.events ++ [.incidentCommit obj Option.none],
                 nCommits := s.nCommits + 1 })
  | some msg =>
      (.error (.runtimeError msg),
       { events := s.events ++ [.incidentCommit obj (some msg)],
         nCommits := s.nCommits + 1 })

/-- Commit an indicator: consult the oracle at the current commit index; on
`some msg` the commit raises `RuntimeError msg`. -/
def doCommitIndicator (orc : Nat → Option String) (obj : IndicatorObj)
    (s : RunState) : Except PyExc Unit × RunState :=
  match orc s.nCommits with
  | Option.none =>
      (.ok (), { events := s.events ++ [.indicatorCommit obj Option.none],
                 nCommits := s.nCommits + 1 })
  | some msg =>
      (.error (.runtimeError msg),
       { events := s.events ++ [.indicatorCommit obj (some msg)],
         nCommits := s.nCommits + 1 })

/-- Exceptions caught by the per-item guards and by the orchestrator's
guard around the file extractor: `except (CuckooReportError, RuntimeError)`. -/
def isCuckooOrRuntime : PyExc → Bool
  | .cuckooReportError _ => true
  | .runtimeError _ => true
  | _ => false

/-- Embedding of `try: body except (CuckooReportError, RuntimeError): pass`
around one per-item upload. -/
def guardItem (body : RunState → Except PyExc Unit × RunState)
    (s : RunState) : Except PyExc Unit × RunState :=
  match body s with
  | (.ok _, s1) => (.ok (), s1)
  | (.error e, s1) => if isCuckooOrRuntime e then (.ok (), s1) else (.error e, s1)

/-- Exception handler of the indicator commits (`except RuntimeError as e`,
lines 105-107 and 252-254): a `RuntimeError` is classified by evaluating
`re.search('exclusion list', e)` — note the second argument is the caught
exception object, not a string — and re-raised as `CuckooReportError` only
when the search finds nothing; any other exception propagates unchanged. -/
def handleIndicatorCommitError (e : PyExc) (s1 : RunState) :
    Except PyExc Unit × RunState :=
  match e with
  | .runtimeError m =>
      match reSearch "exclusion list" (.exc (.runtimeError m)) with
      | .error e2 => (.error e2, s1)
      | .ok b =>
          if b then (.ok (), s1)
          else (.error (.cuckooReportError ("Failed to commit indicator: " ++ m)), s1)
  | e2 => (.error e2, s1)

/-- Shared commit-and-classify step of `upload_indicator` (lines 102-107)
and `import_file` (lines 249-254): commit, handling failures with
`handleIndicatorCommitError`. -/
def commitIndicatorChecked (orc : Nat → Option String) (obj : IndicatorObj)
    (s : RunState) : Except PyExc Unit × RunState :=
  match doCommitIndicator orc obj s with
  | (.ok _, s1) => (.ok (), s1)
  | (.error e, s1) => handleIndicatorCommitError e s1

/-- Embedding of `upload_indicator` (lines 96-107): create an indicator
bound to the raw value, associate it with the run's incident, commit with
the exclusion-list classification of failures. -/
def upload_indicator (cfg : Config) (orc : Nat → Option String)
    (incidentId : Int) (raw : PyVal) (s : RunState) :
    Except PyExc Unit × RunState :=
  let obj : IndicatorObj :=
    { value := raw, source := cfg.target_source, secondary := [],
      size := Option.none, occurrences := [], associations := [incidentId] }
  let s1 := addEvents s [.indicatorAdd raw cfg.target_source,
                         .indicatorAssociateGroup "INCIDENTS" incidentId]
  commitIndicatorChecked orc obj s1

/-- Evaluate `conn.get(key)` and feed the result to `upload_indicator`
(the argument evaluation happens inside the caller's `try`). -/
def uploadFromKey (cfg : Config) (orc : Nat → Option String)
    (incidentId : Int) (conn : PyVal) (key : String) (s : RunState) :
    Except PyExc Unit × RunState :=
  match pyGet conn key with
  | .error e => (.error e, s)
  | .ok v => upload_indicator cfg orc incidentId v s

/-- Loop body of `import_network` (lines 116-128): for each connection,
guardedly upload its `src`, then its `dst`. -/
def importConnList (cfg : Config) (orc : Nat → Option String)
    (incidentId : Int) : List PyVal → RunState → Except PyExc Unit × RunState
  | [], s => (.ok (), s)
  | conn :: rest, s =>
    match guardItem (uploadFromKey cfg orc incidentId conn "src") s with
    | (.error e, s1) => (.error e, s1)
    | (.ok _, s1) =>
      match guardItem (uploadFromKey cfg orc incidentId conn "dst") s1 with
      | (.error e, s2) => (.error e, s2)
      | (.ok _, s2) => importConnList cfg orc incidentId rest s2

/-- Embedding of `import_network` (lines 109-128). -/
def import_network (cfg : Config) (orc : Nat → Option String)
    (results : PyVal) (incidentId : Int) (ty : String) (s : RunState) :
    Except PyExc Unit × RunState :=
  match pyGetD results "network" (.dict []) with
  | .error e => (.error e, s)
  | .ok net =>
    match pyGetD net ty (.dict []) with
    | .error e => (.error e, s)
    | .ok coll =>
      match pyIter coll with
      | .error e => (.error e, s)
      | .ok items => importConnList cfg orc incidentId items s

/-- Python `re.sub(':\d+', '', obj)`: the subject must be a string, any
other object raises `TypeError: expected string or buffer`. -/
def reSubPorts : PyVal → Except PyExc String
  | .str s => .ok (stripPorts s)
  | _ => .error (.typeError "expected string or buffer")

/-- Loop body of `import_network_http` (lines 137-154): normalize
`conn.get('host')` (outside any per-item guard), upload the host only when
it classifies as an IP address, then upload `conn.get('uri')` when truthy. -/
def importHttpList (cfg : Config) (orc : Nat → Option String)
    (incidentId : Int) : List PyVal → RunState → Except PyExc Unit × RunState
  | [], s => (.ok (), s)
  | conn :: rest, s =>
    match pyGet conn "host" with
    | .error e => (.error e, s)
    | .ok hv =>
      match reSubPorts hv with
      | .error e => (.error e, s)
      | .ok host =>
        match ip (.str host) with
        | .error e => (.error e, s)
        | .ok b =>
          match (if b then guardItem (upload_indicator cfg orc incidentId (.str host)) s
                 else (.ok (), s)) with
          | (.error e, s1) => (.error e, s1)
          | (.ok _, s1) =>
            match pyGet conn "uri" with
            | .error e => (.error e, s1)
            | .ok u =>
              if truthy u then
                match guardItem (uploadFromKey cfg orc incidentId conn "uri") s1 with
                | (.error e, s2) => (.error e, s2)
                | (.ok _, s2) => importHttpList cfg orc incidentId rest s2
              else importHttpList cfg orc incidentId rest s1

/-- Embedding of `import_network_http` (lines 130-154). -/
def import_network_http (cfg : Config) (orc : Nat → Option String)
    (results : PyVal) (incidentId : Int) (s : RunState) :
    Except PyExc Unit × RunState :=
  match pyGetD results "network" (.dict []) with
  | .error e => (.error e, s)
  | .ok net =>
    match pyGetD net "http" (.dict []) with
    | .error e => (.error e, s)
    | .ok coll =>
      match pyIter coll with
      | .error e => (.error e, s)
      | .ok items => importHttpList cfg orc incidentId items s

/-- Loop body of `import_network_hosts` (lines 162-175): both branches of
the IP check perform the same guarded upload. -/
def importHostList (cfg : Config) (orc : Nat → Option String)
    (incidentId : Int) : List PyVal → RunState → Except PyExc Unit × RunState
  | [], s => (.ok (), s)
  | host :: rest, s =>
    match ip host with
    | .error e => (.error e, s)
    | .ok b =>
      match (if b then guardItem (upload_indicator cfg orc incidentId host) s
             else guardItem (upload_indicator cfg orc incidentId host) s) with
      | (.error e, s1) => (.error e, s1)
      | (.ok _, s1) => importHostList cfg orc incidentId rest s1

/-- Embedding of `import_network_hosts` (lines 156-175). -/
def import_network_hosts (cfg : Config) (orc : Nat → Option String)
    (results : PyVal) (incidentId : Int) (s : RunState) :
    Except PyExc Unit × RunState :=
  match pyGetD results "network" (.dict []) with
  | .error e => (.error e, s)
  | .ok net =>
    match pyGetD net "hosts" (.dict []) with
    | .error e => (.error e, s)
    | .ok coll =>
      match pyIter coll with
      | .error e => (.error e, s)
      | .ok items => importHostList cfg orc incidentId items s

/-- Upload every DNS answer of a connection, each guarded individually
(lines 193-197). -/
def importAnswerList (cfg : Config) (orc : Nat → Option String)
    (incidentId : Int) : List PyVal → RunState → Except PyExc Unit × RunState
  | [], s => (.ok (), s)
  | a :: rest, s =>
    match guardItem (upload_indicator cfg orc incidentId a) s with
    | (.error e, s1) => (.error e, s1)
    | (.ok _, s1) => importAnswerList cfg orc incidentId rest s1

/-- Loop body of `import_network_dns` (lines 184-197): guardedly upload the
request, then iterate `conn.get('answers', list())`. -/
def importDnsList (cfg : Config) (orc : Nat → Option String)
    (incidentId : Int) : List PyVal → RunState → Except PyExc Unit × RunState
  | [], s => (.ok (), s)
  | conn :: rest, s =>
    match guardItem (uploadFromKey cfg orc incidentId conn "request") s with
    | (.error e, s1) => (.error e, s1)
    | (.ok _, s1) =>
      match pyGetD conn "answers" (.list []) with
      | .error e => (.error e, s1)
      | .ok avs =>
        match pyIter avs with
        | .error e => (.error e, s1)
        | .ok answers =>
          match importAnswerList cfg orc incidentId answers s1 with
          | (.error e, s2) => (.error e, s2)
          | (.ok _, s2) => importDnsList cfg orc incidentId rest s2

/-- Embedding of `import_network_dns` (lines 177-197). -/
def import_network_dns (cfg : Config) (orc : Nat → Option String)
    (results : PyVal) (incidentId : Int) (s : RunState) :
    Except PyExc Unit × RunState :=
  match pyGetD results "network" (.dict []) with
  | .error e => (.error e, s)
  | .ok net =>
    match pyGetD net "dns" (.dict []) with
    | .error e => (.error e, s)
    | .ok coll =>
      match pyIter coll with
      | .error e => (.error e, s)
      | .ok items => importDnsList cfg orc incidentId items s

/-- Loop body of `import_network_domains` (lines 205-219): the truthiness
checks on `domain.get('ip')` and `domain.get('domain')` happen outside the
per-item guards, the uploads inside. -/
def importDomainList (cfg : Config) (orc : Nat → Option String)
    (incidentId : Int) : List PyVal → RunState → Except PyExc Unit × RunState
  | [], s => (.ok (), s)
  | domain :: rest, s =>
    match pyGet domain "ip" with
    | .error e => (.error e, s)
    | .ok dip =>
      match (if truthy dip
             then guardItem (uploadFromKey cfg orc incidentId domain "ip") s
             else (.ok (), s)) with
      | (.error e, s1) => (.error e, s1)
      | (.ok _, s1) =>
        match pyGet domain "domain" with
        | .error e => (.error e, s1)
        | .ok dm =>
          match (if truthy dm
                 then guardItem (uploadFromKey cfg orc incidentId domain "domain") s1
                 else (.ok (), s1)) with
          | (.error e, s2) => (.error e, s2)
          | (.ok _, s2) => importDomainList cfg orc incidentId rest s2

/-- Embedding of `import_network_domains` (lines 199-219). -/
def import_network_domains (cfg : Config) (orc : Nat → Option String)
    (results : PyVal) (incidentId : Int) (s : RunState) :
    Except PyExc Unit × RunState :=
  match pyGetD results "network" (.dict []) with
  | .error e => (.error e, s)
  | .ok net =>
    match pyGetD net "domains" (.dict []) with
    | .error e => (.error e, s)
    | .ok coll =>
      match pyIter coll with
      | .error e => (.error e, s)
      | .ok items => importDomainList cfg orc incidentId items s

/-- Python `v == 'lit'` for the shapes in play: only equal strings compare
equal; values of other types are simply unequal (no exception). -/
def pyEqStr (v : PyVal) (lit : String) : Bool :=
  match v with
  | .str s => s = lit
  | _ => false

/-- Embedding of `import_file` (lines 221-254): when the target category is
`'file'` and the file section is truthy, build one indicator keyed by the
MD5, set SHA1/SHA256 as secondary values and the size, optionally record a
file occurrence dated by the first ten characters of `info.started`,
associate with the incident and commit with the exclusion-list
classification. -/
def import_file (cfg : Config) (orc : Nat → Option String) (results : PyVal)
    (incidentId : Int) (s : RunState) : Except PyExc Unit × RunState :=
  match pyGet results "target" with
  | .error e => (.error e, s)
  | .ok t =>
  match pyGet t "category" with
  | .error e => (.error e, s)
  | .ok cat =>
  if pyEqStr cat "file" then
    match pyGet t "file" with
    | .error e => (.error e, s)
    | .ok fd =>
      if truthy fd then
        match pyGet fd "md5" with
        | .error e => (.error e, s)
        | .ok md5 =>
        let s1 := addEvents s [.indicatorAdd md5 cfg.target_source]
        match pyGet fd "sha1" with
        | .error e => (.error e, s1)
        | .ok sha1 =>
        let s2 := addEvents s1 [.indicatorSetIndicator sha1]
        match pyGet fd "sha256" with
        | .error e => (.error e, s2)
        | .ok sha256 =>
        let s3 := addEvents s2 [.indicatorSetIndicator sha256]
        match pyGet fd "size" with
        | .error e => (.error e, s3)
        | .ok size =>
        let s4 := addEvents s3 [.indicatorSetSize size]
        match pyGet results "info" with
        | .error e => (.error e, s4)
        | .ok info =>
        match pyGet info "started" with
        | .error e => (.error e, s4)
        | .ok started =>
        match (if truthy started then
                 match pySlice10 started with
                 | .error e => .error e
                 | .ok foDate =>
                   match pyGet fd "name" with
                   | .error e => .error e
                   | .ok nm => .ok (some (nm, pyStr foDate))
               else .ok Option.none :
                 Except PyExc (Option (PyVal × String))) with
        | .error e => (.error e, s4)
        | .ok occ =>
        let s5 := match occ with
          | some o => addEvents s4 [.indicatorAddFileOccurrence o.1 o.2]
          | Option.none => s4
        let obj : IndicatorObj :=
          { value := md5, source := cfg.target_source,
            secondary := [sha1, sha256], size := some size,
            occurrences := (match occ with | some o => [o] | Option.none => []),
            associations := [incidentId] }
        let s6 := addEvents s5 [.indicatorAssociateGroup "INCIDENTS" incidentId]
        commitIndicatorChecked orc obj s6
      else (.ok (), s)
  else (.ok (), s)

/-- Pure part of `create_incident` (lines 47-72), before the first commit:
returns the locally built incident, or the exception the build raises, in
either case together with the client calls made so far.  A falsy
`target.file.name` leaves `filename` unassigned, so building the title
raises `UnboundLocalError`; a falsy `info.id` likewise fails at
`add_attribute`. -/
def buildIncident (cfg : Config) (results : PyVal) :
    Except PyExc IncidentObj × List Event :=
  match pyGet results "target" with
  | .error e => (.error e, [])
  | .ok t =>
  match pyGet t "file" with
  | .error e => (.error e, [])
  | .ok f =>
  match pyGet f "name" with
  | .error e => (.error e, [])
  | .ok n =>
  match (if truthy n then some n else Option.none) with
  | Option.none =>
      (.error (.unboundLocalError
        "local variable 'filename' referenced before assignment"), [])
  | some filename =>
  let title := "Cuckoo Analysis " ++ cfg.dateToday ++ ": " ++ pyStr filename
  let ev1 : List Event :=
    [.incidentAdd title cfg.target_source, .incidentSetEventDate cfg.nowIso]
  match pyGet results "info" with
  | .error e => (.error e, ev1)
  | .ok info =>
  match pyGet info "id" with
  | .error e => (.error e, ev1)
  | .ok i =>
  match (if truthy i then some i else Option.none) with
  | Option.none =>
      (.error (.unboundLocalError
        "local variable 'analysis_id' referenced before assignment"), ev1)
  | some analysisId =>
  let reportLink := formatOne cfg.report_link_template (pyStr analysisId)
  let obj : IncidentObj :=
    { title := title, source := cfg.target_source,
      eventDate := some cfg.nowIso,
      attributes := [("Analysis ID", analysisId), ("Source", .str reportLink)],
      labels := [] }
  (.ok obj,
   ev1 ++ [.incidentAddAttribute "Analysis ID" analysisId,
           .incidentAddAttribute "Source" (.str reportLink)])

/-- Exception handler of the incident commits (`except RuntimeError as e:
raise CuckooReportError(...)`, lines 77-78 and 91-92): a `RuntimeError`
becomes a fatal `CuckooReportError`; any other exception propagates
unchanged. -/
def incidentCommitFail : PyExc → PyExc
  | .runtimeError m => .cuckooReportError ("Failed to commit incident: " ++ m)
  | e => e

/-- Embedding of `create_incident` (lines 41-94): build the incident,
commit (a `RuntimeError` becomes a fatal `CuckooReportError`), reload the
attributes, label `Analysis ID` and `Source` with `DO NOT SHARE`, commit
again (same fatal handling), and return the incident's id. -/
def create_incident (cfg : Config) (orc : Nat → Option String)
    (results : PyVal) (s : RunState) : Except PyExc Int × RunState :=
  match buildIncident cfg results with
  | (.error e, evs) => (.error e, addEvents s evs)
  | (.ok obj, evs) =>
    let s1 := addEvents s evs
    match doCommitIncident orc obj s1 with
    | (.error e, s2) => (.error (incidentCommitFail e), s2)
    | (.ok _, s2) =>
      let s3 := addEvents s2 [.incidentLoadAttributes]
      let toLabel := obj.attributes.filter
        (fun kv => kv.1 = "Analysis ID" || kv.1 = "Source")
      let s4 := addEvents s3
        (toLabel.map (fun kv => .attributeAddSecurityLabel kv.1 "DO NOT SHARE"))
      let obj2 := { obj with labels := toLabel.map (fun kv => (kv.1, "DO NOT SHARE")) }
      match doCommitIncident orc obj2 s4 with
      | (.error e, s5) => (.error (incidentCommitFail e), s5)
      | (.ok _, s5) => (.ok cfg.newIncidentId, s5)

/-- Embedding of `run` (lines 256-281): create the incident (fatal on
failure), then the extractors in their fixed order, with only the file
extractor guarded by `except (CuckooReportError, RuntimeError): pass`. -/
def run (cfg : Config) (orc : Nat → Option String) (results : PyVal)
    (s : RunState) : Except PyExc Unit × RunState :=
  match create_incident cfg orc results s with
  | (.error e, s1) => (.error e, s1)
  | (.ok incidentId, s1) =>
    match import_network cfg orc results incidentId "udp" s1 with
    | (.error e, s2) => (.error e, s2)
    | (.ok _, s2) =>
    match import_network cfg orc results incidentId "tcp" s2 with
    | (.error e, s3) => (.error e, s3)
    | (.ok _, s3) =>
    match import_network_http cfg orc results incidentId s3 with
    | (.error e, s4) => (.error e, s4)
    | (.ok _, s4) =>
    match import_network_hosts cfg orc results incidentId s4 with
    | (.error e, s5) => (.error e, s5)
    | (.ok _, s5) =>
    match import_network_dns cfg orc results incidentId s5 with
    | (.error e, s6) => (.error e, s6)
    | (.ok _, s6) =>
    match import_network_domains cfg orc results incidentId s6 with
    | (.error e, s7) => (.error e, s7)
    | (.ok _, s7) =>
    match import_file cfg orc results incidentId s7 with
    | (.ok _, s8) => (.ok (), s8)
    | (.error e, s8) =>
        if isCuckooOrRuntime e then (.ok (), s8) else (.error e, s8)

/-- Whether an event is an `indicators.add` call, i.e. the start of one
indicator upload attempt. -/
def isIndicatorAdd : Event → Bool
  | .indicatorAdd _ _ => true
  | _ => false

/-- Number of indicator upload attempts recorded in a trace. -/
def countUploadAttempts (evs : List Event) : Nat :=
  (evs.filter isIndicatorAdd).length

/-- Whether an event is an indicator commit. -/
def isIndicatorCommit : Event → Bool
  | .indicatorCommit _ _ => true
  | _ => false

/-- Initial state of a run: empty trace, no commits issued. -/
def initState : RunState := { events := [], nCommits := 0 }

/-- Commit oracle under which every commit succeeds. -/
def orcOK : Nat → Option String := fun _ => Option.none

/-- Commit oracle under which every commit fails with `RuntimeError "boom"`. -/
def orcBoom : Nat → Option String := fun _ => some "boom"

/-- Commit oracle under which every commit fails with a `RuntimeError`
whose message indicates the platform's exclusion-list policy. -/
def orcExcl : Nat → Option String :=
  fun _ => some "this value is on an exclusion list"

/-- Concrete configuration used by the closed scenarios. -/
def cfgA : Config :=
  { target_source := "acme",
    report_link_template := "https://cuckoo.local/analysis/\x7b\x7d",
    dateToday := "20231215", nowIso := "2023-12-15T10:00:00",
    newIncidentId := 1 }

/-- End-to-end scenario input with `network.dns` as a one-element list. -/
def resultsScenario : PyVal :=
  .dict [
    ("target", .dict [
      ("category", .str "file"),
      ("file", .dict [
        ("name", .str "a.exe"), ("md5", .str "m"),
        ("sha1", .str "s1"), ("sha256", .str "s2"), ("size", .int 100)])]),
    ("info", .dict [("id", .int 42), ("started", .str "2023-01-01T00:00:00")]),
    ("network", .dict [
      ("dns", .list [.dict [
        ("request", .str "example.com"),
        ("answers", .list [.str "1.2.3.4"])]])])]

/-- End-to-end scenario input exactly as written in the specification:
`network.dns` is a mapping `\x7brequest: ..., answers: ...\x7d`, not a
list of connection records. -/
def resultsScenarioDnsMapping : PyVal :=
  .dict [
    ("target", .dict [
      ("category", .str "file"),
      ("file", .dict [
        ("name", .str "a.exe"), ("md5", .str "m"),
        ("sha1", .str "s1"), ("sha256", .str "s2"), ("size", .int 100)])]),
    ("info", .dict [("id", .int 42), ("started", .str "2023-01-01T00:00:00")]),
    ("network", .dict [
      ("dns", .dict [
        ("request", .str "example.com"),
        ("answers", .list [.str "1.2.3.4"])])])]

/-- Input with a valid target and info but no `network` key at all, and a
category that is not `'file'`. -/
def resultsNoNetwork : PyVal :=
  .dict [
    ("target", .dict [
      ("category", .str "url"),
      ("file", .dict [("name", .str "a.exe")])]),
    ("info", .dict [("id", .int 7)])]

/-- Input whose `target.file` mapping lacks a `name` field. -/
def resultsNoFilename : PyVal :=
  .dict [
    ("target", .dict [("category", .str "file"), ("file", .dict [])]),
    ("info", .dict [("id", .int 7)])]

/-- Input with a valid target but no `info` section. -/
def resultsNoInfo : PyVal :=
  .dict [
    ("target", .dict [
      ("category", .str "file"),
      ("file", .dict [("name", .str "a.exe"), ("md5", .str "m")])])]

/-- Input with one HTTP entry whose host is a plain (non-IP) hostname and
which has no URI. -/
def resultsHttpPlainHost : PyVal :=
  .dict [
    ("target", .dict [
      ("category", .str "url"),
      ("file", .dict [("name", .str "a.exe")])]),
    ("info", .dict [("id", .int 7)]),
    ("network", .dict [("http", .list [.dict [("host", .str "example.com")]])])]

/-- Input with one HTTP entry that lacks the `host` field. -/
def resultsHttpMissingHost : PyVal :=
  .dict [
    ("target", .dict [
      ("category", .str "url"),
      ("file", .dict [("name", .str "a.exe")])]),
    ("info", .dict [("id", .int 7)]),
    ("network", .dict [("http", .list [.dict [("uri", .str "/index.html")]])])]

/-- Input with two TCP connections and no UDP section. -/
def resultsTcpTwo : PyVal :=
  .dict [
    ("target", .dict [
      ("category", .str "url"),
      ("file", .dict [("name", .str "a.exe")])]),
    ("info", .dict [("id", .int 7)]),
    ("network", .dict [("tcp", .list [
      .dict [("src", .str "10.0.0.1"), ("dst", .str "10.0.0.2")],
      .dict [("src", .str "10.0.0.3"), ("dst", .str "10.0.0.4")]])])]

/-- Every indicator commit recorded in the trace carries an association to
the given incident id at commit time. -/
def commitsAssociated (iid : Int) (evs : List Event) : Prop :=
  ∀ obj o, Event.indicatorCommit obj o ∈ evs → iid ∈ obj.associations

/-- Expected output of a run on `resultsScenario` under `cfgA` with every
commit succeeding: the full trace of client calls and the final commit
count. -/
def scenarioOutput : Except PyExc Unit × RunState :=
  (.ok (),
   { events := [
       .incidentAdd "Cuckoo Analysis 20231215: a.exe" "acme",
       .incidentSetEventDate "2023-12-15T10:00:00",
       .incidentAddAttribute "Analysis ID" (.int 42),
       .incidentAddAttribute "Source" (.str "https://cuckoo.local/analysis/42"),
       .incidentCommit
         { title := "Cuckoo Analysis 20231215: a.exe", source := "acme",
           eventDate := some "2023-12-15T10:00:00",
           attributes := [("Analysis ID", .int 42),
                          ("Source", .str "https://cuckoo.local/analysis/42")],
           labels := [] } Option.none,
       .incidentLoadAttributes,
       .attributeAddSecurityLabel "Analysis ID" "DO NOT SHARE",
       .attributeAddSecurityLabel "Source" "DO NOT SHARE",
       .incidentCommit
         { title := "Cuckoo Analysis 20231215: a.exe", source := "acme",
           eventDate := some "2023-12-15T10:00:00",
           attributes := [("Analysis ID", .int 42),
                          ("Source", .str "https://cuckoo.local/analysis/42")],
           labels := [("Analysis ID", "DO NOT SHARE"),
                      ("Source", "DO NOT SHARE")] } Option.none,
       .indicatorAdd (.str "example.com") "acme",
       .indicatorAssociateGroup "INCIDENTS" 1,
       .indicatorCommit
         { value := .str "example.com", source := "acme", secondary := [],
           size := Option.none, occurrences := [],
           associations := [1] } Option.none,
       .indicatorAdd (.str "1.2.3.4") "acme",
       .indicatorAssociateGroup "INCIDENTS" 1,
       .indicatorCommit
         { value := .str "1.2.3.4", source := "acme", secondary := [],
           size := Option.none, occurrences := [],
           associations := [1] } Option.none,
       .indicatorAdd (.str "m") "acme",
       .indicatorSetIndicator (.str "s1"),
       .indicatorSetIndicator (.str "s2"),
       .indicatorSetSize (.int 100),
       .indicatorAddFileOccurrence (.str "a.exe") "2023-01-01",
       .indicatorAssociateGroup "INCIDENTS" 1,
       .indicatorCommit
         { value := .str "m", source := "acme",
           secondary := [.str "s1", .str "s2"], size := some (.int 100),
           occurrences := [(.str "a.exe", "2023-01-01")],
           associations := [1] } Option.none ],
     nCommits := 5 })

/-- Evaluation of the scenario run, shared by several proofs below. -/
theorem runScenario_eq : run cfgA orcOK resultsScenario initState = scenarioOutput := by
  rfl

/-- Evaluation of `ip` on a string: it always returns normally, with the
verdict of the IPv4/IPv6 parsers. -/
theorem ip_str_eval (s : String) :
    ip (.str s) = .ok (isIPv4 s || isIPv6 s) := by
  unfold ip ip_address
  cases h : isIPv4 s || isIPv6 s <;> simp [h]

/-- Evaluation of `stripPorts "example.com"` (no colon-digit occurrence). -/
theorem stripPorts_example_com : stripPorts "example.com" = "example.com" := by
  simp [stripPorts, stripPortsAux, digitHead, List.dropWhile]

/-- C1 (code_bug): the spec says a commit failure whose message indicates
the exclusion-list policy is swallowed silently by `upload_indicator`.  In
the code, the handler evaluates `re.search('exclusion list', e)` with `e`
being the caught `RuntimeError` object rather than its message string, so
`re.search` raises `TypeError: expected string or buffer`; the `TypeError`
escapes `upload_indicator` (and is not caught by any
`except (CuckooReportError, RuntimeError)` guard).  Here the commit fails
with a message that does contain `"exclusion list"`, yet the call raises. -/
theorem upload_indicator_exclusion_raises_typeerror :
    containsSubstr "exclusion list" "this value is on an exclusion list" = true ∧
    (upload_indicator cfgA orcExcl 1 (.str "1.2.3.4") initState).1 =
      .error (.typeError "expected string or buffer") := by
  exact ⟨rfl, rfl⟩

/-- C10 (confirmed): an HTTP entry without a `host` field makes the
extractor apply `re.sub(':\d+', '', None)`, which raises `TypeError`
outside every per-item guard; the error propagates out of
`import_network_http` and aborts the entire `run`. -/
theorem http_missing_host_typeerror_aborts :
    (import_network_http cfgA orcOK resultsHttpMissingHost 1 initState).1 =
      .error (.typeError "expected string or buffer") ∧
    (run cfgA orcOK resultsHttpMissingHost initState).1 =
      .error (.typeError "expected string or buffer") := by
  exact ⟨rfl, rfl⟩

/-- C2 (counterexample): for an HTTP entry whose host is a plain hostname
(not an IP address) and which has no URI, the HTTP extractor makes zero
upload attempts: the host is not "uploaded either way" — the IP check
guards the host upload itself. -/
theorem http_nonip_host_not_uploaded :
    (import_network_http cfgA orcOK resultsHttpPlainHost 1 initState).1 = .ok () ∧
    countUploadAttempts
      (import_network_http cfgA orcOK resultsHttpPlainHost 1 initState).2.events = 0 := by
  constructor <;>
    simp [import_network_http, importHttpList, pyGetD, pyGet, alistLookup, pyIter,
      reSubPorts, stripPorts_example_com, ip, ip_address, isIPv4, isIPv4Chars,
      splitOnChar, validOctet, isIPv6, decimalValue, truthy, resultsHttpPlainHost,
      initState, countUploadAttempts]

/-- C2 (amended): for an HTTP entry with a string host and any `uri`
value, the extractor uploads the port-stripped host only when it
classifies as an IP address, and uploads the URI exactly when it is
truthy. -/
theorem http_upload_per_entry (cfg : Config) (iid : Int) (h : String) (u : PyVal) :
    ((importHttpList cfg orcOK iid
        [.dict [("host", .str h), ("uri", u)]] initState).2.events.filter
      isIndicatorAdd) =
    (if isIPv4 (stripPorts h) || isIPv6 (stripPorts h)
     then [Event.indicatorAdd (.str (stripPorts h)) cfg.target_source] else []) ++
    (if truthy u then [Event.indicatorAdd u cfg.target_source] else []) := by
  simp only [importHttpList, pyGet, pyGetD, alistLookup, reSubPorts]
  simp only [ip_str_eval]
  cases hip : isIPv4 (stripPorts h) || isIPv6 (stripPorts h) <;>
    cases hu : truthy u <;>
      simp [hip, hu, guardItem, upload_indicator, uploadFromKey, pyGet, pyGetD,
        alistLookup, commitIndicatorChecked, doCommitIndicator, orcOK, addEvents,
        initState, isIndicatorAdd, isCuckooOrRuntime]

/-- C3 (counterexample): on an entirely empty results mapping, the very
first step raises: `results.get('target')` is `None` and
`None.get('file')` raises `AttributeError`, which aborts the run — absence
of the optional sections is not treated as empty here. -/
theorem run_empty_results_raises :
    (run cfgA orcOK (.dict []) initState).1 =
      .error (.attributeError "'NoneType' object has no attribute 'get'") := by
  rfl

/-- C3 (amended): absence of `network` (and hence of every network
subsection) is treated as empty — the run completes with zero upload
attempts; but absence of `target.file.name` makes `create_incident` raise
`UnboundLocalError` (`filename` is only assigned under a truthiness
guard), absence of `info` makes it raise `AttributeError`, and in
`import_file` a missing `info` section raises `AttributeError`, which
`run`'s `except (CuckooReportError, RuntimeError)` guard does not catch. -/
theorem optional_sections_behaviour :
    (run cfgA orcOK resultsNoNetwork initState).1 = .ok () ∧
    countUploadAttempts (run cfgA orcOK resultsNoNetwork initState).2.events = 0 ∧
    (run cfgA orcOK resultsNoFilename initState).1 =
      .error (.unboundLocalError
        "local variable 'filename' referenced before assignment") ∧
    (run cfgA orcOK resultsNoInfo initState).1 =
      .error (.attributeError "'NoneType' object has no attribute 'get'") ∧
    (import_file cfgA orcOK resultsNoInfo 1 initState).1 =
      .error (.attributeError "'NoneType' object has no attribute 'get'") := by
  exact ⟨rfl, rfl, rfl, rfl, rfl⟩

/-- C4 (counterexample): on the scenario input exactly as written — with
`network.dns` a mapping rather than a list of connection records — the DNS
extractor iterates the mapping's keys, calls `.get('request')` on the
string key `"request"`, and raises `AttributeError`; the run aborts and
not a single indicator upload is attempted, contradicting the expected
DNS and file indicators. -/
theorem run_dns_mapping_literal_raises :
    (run cfgA orcOK resultsScenarioDnsMapping initState).1 =
      .error (.attributeError "'str' object has no attribute 'get'") ∧
    (run cfgA orcOK resultsScenarioDnsMapping initState).2.events.filter
      isIndicatorAdd = [] := by
  exact ⟨rfl, rfl⟩

/-- C4 (amended, with `network.dns` read as a one-element list of
connection records): the run produces exactly one incident carrying
attributes `Analysis ID = 42` and `Source` equal to the template
instantiated with `42`, one DNS request indicator `"example.com"`, one DNS
answer indicator `"1.2.3.4"`, and one file indicator keyed by md5 `"m"`
with secondary hashes `"s1"`, `"s2"`, size `100`, and a file occurrence
with filename `"a.exe"` dated `"2023-01-01"` (the first ten characters of
the start timestamp) — `scenarioOutput` spells out the full trace. -/
theorem run_scenario_trace :
    run cfgA orcOK resultsScenario initState = scenarioOutput := by
  rfl

/-- C6 (code_bug): with two TCP connections and no UDP section, the spec
expects (2+0)×2 = 4 upload attempts from the pair of connection
extractors regardless of upload failures.  When commits succeed this
holds (last two conjuncts).  But when a commit fails with `RuntimeError`,
the exclusion-list check inside `upload_indicator` raises `TypeError`
(`re.search` applied to the exception object), which the per-item
`except (CuckooReportError, RuntimeError)` guard does not catch: the
extractor aborts after a single upload attempt. -/
theorem connection_upload_attempt_counts :
    (import_network cfgA orcBoom resultsTcpTwo 1 "udp" initState).1 = .ok () ∧
    (import_network cfgA orcBoom resultsTcpTwo 1 "udp" initState).2.events = [] ∧
    (import_network cfgA orcBoom resultsTcpTwo 1 "tcp" initState).1 =
      .error (.typeError "expected string or buffer") ∧
    countUploadAttempts
      (import_network cfgA orcBoom resultsTcpTwo 1 "tcp" initState).2.events = 1 ∧
    (import_network cfgA orcOK resultsTcpTwo 1 "udp" initState).2.events = [] ∧
    (import_network cfgA orcOK resultsTcpTwo 1 "tcp" initState).1 = .ok () ∧
    countUploadAttempts
      (import_network cfgA orcOK resultsTcpTwo 1 "tcp" initState).2.events = 4 := by
  exact ⟨rfl, rfl, rfl, rfl, rfl, rfl, rfl⟩

theorem commitsAssociated_append {iid : Int} {l1 l2 : List Event}
    (h1 : commitsAssociated iid l1) (h2 : commitsAssociated iid l2) :
    commitsAssociated iid (l1 ++ l2) := by
  intro obj o hm
  rcases List.mem_append.1 hm with hm | hm
  · exact h1 obj o hm
  · exact h2 obj o hm

theorem commitsAssociated_addEvents {iid : Int} {s : RunState} {evs : List Event}
    (h : commitsAssociated iid s.events) (h2 : commitsAssociated iid evs) :
    commitsAssociated iid (addEvents s evs).events := by
  simp only [addEvents]
  exact commitsAssociated_append h h2

theorem noCommit_events (iid : Int) (evs : List Event)
    (h : evs.all (fun ev => !isIndicatorCommit ev) = true) :
    commitsAssociated iid evs := by
  intro obj o hm
  have := List.all_eq_true.1 h _ hm
  simp [isIndicatorCommit] at this

theorem doCommitIndicator_assoc (iid : Int) (orc : Nat → Option String)
    (obj : IndicatorObj) (s : RunState)
    (h : commitsAssociated iid s.events) (hobj : iid ∈ obj.associations) :
    commitsAssociated iid (doCommitIndicator orc obj s).2.events := by
  unfold doCommitIndicator
  cases horc : orc s.nCommits <;>
  · refine commitsAssociated_append h ?_
    intro obj2 o2 hm
    simp only [List.mem_singleton, Event.indicatorCommit.injEq] at hm
    rw [hm.1]
    exact hobj

theorem handleIndicatorCommitError_state (e : PyExc) (s1 : RunState) :
    (handleIndicatorCommitError e s1).2 = s1 := by
  cases e <;> rfl

theorem commitIndicatorChecked_assoc (iid : Int) (orc : Nat → Option String)
    (obj : IndicatorObj) (s : RunState)
    (h : commitsAssociated iid s.events) (hobj : iid ∈ obj.associations) :
    commitsAssociated iid (commitIndicatorChecked orc obj s).2.events := by
  have hd := doCommitIndicator_assoc iid orc obj s h hobj
  unfold commitIndicatorChecked
  rcases hdc : doCommitIndicator orc obj s with ⟨r, s2⟩
  rw [hdc] at hd
  match r with
  | .ok _ => exact hd
  | .error e =>
      rw [handleIndicatorCommitError_state e s2]
      exact hd

theorem upload_indicator_assoc (iid : Int) (cfg : Config)
    (orc : Nat → Option String) (raw : PyVal) (s : RunState)
    (h : commitsAssociated iid s.events) :
    commitsAssociated iid (upload_indicator cfg orc iid raw s).2.events := by
  unfold upload_indicator
  refine commitIndicatorChecked_assoc iid orc _ _ (commitsAssociated_addEvents h ?_) ?_
  · intro obj o hm
    simp at hm
  · simp

theorem uploadFromKey_assoc (iid : Int) (cfg : Config)
    (orc : Nat → Option String) (conn : PyVal) (key : String) (s : RunState)
    (h : commitsAssociated iid s.events) :
    commitsAssociated iid (uploadFromKey cfg orc iid conn key s).2.events := by
  rcases hg : pyGet conn key with e | v <;> simp only [uploadFromKey, hg]
  · exact h
  · exact upload_indicator_assoc iid cfg orc v s h

theorem guardItem_assoc (iid : Int)
    (body : RunState → Except PyExc Unit × RunState) (s : RunState)
    (hbody : ∀ s0, commitsAssociated iid s0.events →
      commitsAssociated iid (body s0).2.events)
    (h : commitsAssociated iid s.events) :
    commitsAssociated iid (guardItem body s).2.events := by
  unfold guardItem
  have hb := hbody s h
  rcases hr : body s with ⟨r, s1⟩
  rw [hr] at hb
  match r with
  | .ok _ => exact hb
  | .error e =>
      by_cases hc : isCuckooOrRuntime e = true <;> simp only [hc, if_true, if_false] <;>
        exact hb

theorem importConnList_assoc (iid : Int) (cfg : Config)
    (orc : Nat → Option String) (items : List PyVal) (s : RunState)
    (h : commitsAssociated iid s.events) :
    commitsAssociated iid (importConnList cfg orc iid items s).2.events := by
  induction items generalizing s with
  | nil => exact h
  | cons conn rest ih =>
      have h1 := guardItem_assoc iid (uploadFromKey cfg orc iid conn "src") s
        (fun s0 h0 => uploadFromKey_assoc iid cfg orc conn "src" s0 h0) h
      rcases hg1 : guardItem (uploadFromKey cfg orc iid conn "src") s with ⟨r1, s1⟩
      rw [hg1] at h1
      simp only [importConnList, hg1]
      match r1 with
      | .error e => exact h1
      | .ok _ =>
          have h2 := guardItem_assoc iid (uploadFromKey cfg orc iid conn "dst") s1
            (fun s0 h0 => uploadFromKey_assoc iid cfg orc conn "dst" s0 h0) h1
          rcases hg2 : guardItem (uploadFromKey cfg orc iid conn "dst") s1 with ⟨r2, s2⟩
          rw [hg2] at h2
          simp only [hg2]
          match r2 with
          | .error e => exact h2
          | .ok _ => exact ih s2 h2

theorem import_network_assoc (iid : Int) (cfg : Config)
    (orc : Nat → Option String) (results : PyVal) (ty : String) (s : RunState)
    (h : commitsAssociated iid s.events) :
    commitsAssociated iid (import_network cfg orc results iid ty s).2.events := by
  rcases hnet : pyGetD results "network" (.dict []) with e | net <;>
    simp only [import_network, hnet]
  · exact h
  · rcases hcoll : pyGetD net ty (.dict []) with e | coll <;> simp only [hcoll]
    · exact h
    · rcases hit : pyIter coll with e | items <;> simp only [hit]
      · exact h
      · exact importConnList_assoc iid cfg orc items s h

theorem importHttpList_assoc (iid : Int) (cfg : Config)
    (orc : Nat → Option String) (items : List PyVal) (s : RunState)
    (h : commitsAssociated iid s.events) :
    commitsAssociated iid (importHttpList cfg orc iid items s).2.events := by
  induction items generalizing s with
  | nil => exact h
  | cons conn rest ih =>
      rcases hh : pyGet conn "host" with e | hv <;> simp only [importHttpList, hh]
      · exact h
      · rcases hsub : reSubPorts hv with e | host <;> simp only [hsub]
        · exact h
        · rcases hip : ip (.str host) with e | b <;> simp only [hip]
          · exact h
          · have hif : commitsAssociated iid
                ((if b then guardItem (upload_indicator cfg orc iid (.str host)) s
                  else (.ok (), s)).2.events) := by
              cases b
              · exact h
              · exact guardItem_assoc iid _ s
                  (fun s0 h0 => upload_indicator_assoc iid cfg orc (.str host) s0 h0) h
            split
            · rename_i s1 e heq
              rw [heq] at hif
              exact hif
            · rename_i u0 s1 heq
              rw [heq] at hif
              rcases hu : pyGet conn "uri" with e | u <;> simp only [hu]
              · exact hif
              · split
                · rename_i ht
                  have h2 := guardItem_assoc iid (uploadFromKey cfg orc iid conn "uri") s1
                    (fun s0 h0 => uploadFromKey_assoc iid cfg orc conn "uri" s0 h0) hif
                  split
                  · rename_i e2 s2 heq2
                    rw [heq2] at h2
                    exact h2
                  · rename_i u2 s2 heq2
                    rw [heq2] at h2
                    exact ih s2 h2
                · rename_i ht
                  exact ih s1 hif

theorem import_network_http_assoc (iid : Int) (cfg : Config)
    (orc : Nat → Option String) (results : PyVal) (s : RunState)
    (h : commitsAssociated iid s.events) :
    commitsAssociated iid (import_network_http cfg orc results iid s).2.events := by
  rcases hnet : pyGetD results "network" (.dict []) with e | net <;>
    simp only [import_network_http, hnet]
  · exact h
  · rcases hcoll : pyGetD net "http" (.dict []) with e | coll <;> simp only [hcoll]
    · exact h
    · rcases hit : pyIter coll with e | items <;> simp only [hit]
      · exact h
      · exact importHttpList_assoc iid cfg orc items s h

theorem importHostList_assoc (iid : Int) (cfg : Config)
    (orc : Nat → Option String) (items : List PyVal) (s : RunState)
    (h : commitsAssociated iid s.events) :
    commitsAssociated iid (importHostList cfg orc iid items s).2.events := by
  induction items generalizing s with
  | nil => exact h
  | cons host rest ih =>
      rcases hip : ip host with e | b <;> simp only [importHostList, hip]
      · exact h
      · have hif : commitsAssociated iid
            ((if b then guardItem (upload_indicator cfg orc iid host) s
              else guardItem (upload_indicator cfg orc iid host) s).2.events) := by
          cases b <;>
            exact guardItem_assoc iid _ s
              (fun s0 h0 => upload_indicator_assoc iid cfg orc host s0 h0) h
        split
        · rename_i e s1 heq
          rw [heq] at hif
          exact hif
        · rename_i u0 s1 heq
          rw [heq] at hif
          exact ih s1 hif

theorem import_network_hosts_assoc (iid : Int) (cfg : Config)
    (orc : Nat → Option String) (results : PyVal) (s : RunState)
    (h : commitsAssociated iid s.events) :
    commitsAssociated iid (import_network_hosts cfg orc results iid s).2.events := by
  rcases hnet : pyGetD results "network" (.dict []) with e | net <;>
    simp only [import_network_hosts, hnet]
  · exact h
  · rcases hcoll : pyGetD net "hosts" (.dict []) with e | coll <;> simp only [hcoll]
    · exact h
    · rcases hit : pyIter coll with e | items <;> simp only [hit]
      · exact h
      · exact importHostList_assoc iid cfg orc items s h

theorem importAnswerList_assoc (iid : Int) (cfg : Config)
    (orc : Nat → Option String) (items : List PyVal) (s : RunState)
    (h : commitsAssociated iid s.events) :
    commitsAssociated iid (importAnswerList cfg orc iid items s).2.events := by
  induction items generalizing s with
  | nil => exact h
  | cons a rest ih =>
      have h1 := guardItem_assoc iid (upload_indicator cfg orc iid a) s
        (fun s0 h0 => upload_indicator_assoc iid cfg orc a s0 h0) h
      rcases hg : guardItem (upload_indicator cfg orc iid a) s with ⟨r1, s1⟩
      rw [hg] at h1
      simp only [importAnswerList, hg]
      match r1 with
      | .error e => exact h1
      | .ok _ => exact ih s1 h1

theorem importDnsList_assoc (iid : Int) (cfg : Config)
    (orc : Nat → Option String) (items : List PyVal) (s : RunState)
    (h : commitsAssociated iid s.events) :
    commitsAssociated iid (importDnsList cfg orc iid items s).2.events := by
  induction items generalizing s with
  | nil => exact h
  | cons conn rest ih =>
      have h1 := guardItem_assoc iid (uploadFromKey cfg orc iid conn "request") s
        (fun s0 h0 => uploadFromKey_assoc iid cfg orc conn "request" s0 h0) h
      rcases hg : guardItem (uploadFromKey cfg orc iid conn "request") s with ⟨r1, s1⟩
      rw [hg] at h1
      simp only [importDnsList, hg]
      match r1 with
      | .error e => exact h1
      | .ok _ =>
          rcases ha : pyGetD conn "answers" (.list []) with e | avs <;> simp only [ha]
          · exact h1
          · rcases hi : pyIter avs with e | answers <;> simp only [hi]
            · exact h1
            · have h2 := importAnswerList_assoc iid cfg orc answers s1 h1
              split
              · rename_i e2 s2 heq2
                rw [heq2] at h2
                exact h2
              · rename_i u2 s2 heq2
                rw [heq2] at h2
                exact ih s2 h2

theorem import_network_dns_assoc (iid : Int) (cfg : Config)
    (orc : Nat → Option String) (results : PyVal) (s : RunState)
    (h : commitsAssociated iid s.events) :
    commitsAssociated iid (import_network_dns cfg orc results iid s).2.events := by
  rcases hnet : pyGetD results "network" (.dict []) with e | net <;>
    simp only [import_network_dns, hnet]
  · exact h
  · rcases hcoll : pyGetD net "dns" (.dict []) with e | coll <;> simp only [hcoll]
    · exact h
    · rcases hit : pyIter coll with e | items <;> simp only [hit]
      · exact h
      · exact importDnsList_assoc iid cfg orc items s h

theorem importDomainList_assoc (iid : Int) (cfg : Config)
    (orc : Nat → Option String) (items : List PyVal) (s : RunState)
    (h : commitsAssociated iid s.events) :
    commitsAssociated iid (importDomainList cfg orc iid items s).2.events := by
  induction items generalizing s with
  | nil => exact h
  | cons domain rest ih =>
      rcases hd : pyGet domain "ip" with e | dip <;> simp only [importDomainList, hd]
      · exact h
      · have hif : commitsAssociated iid
            ((if truthy dip
              then guardItem (uploadFromKey cfg orc iid domain "ip") s
              else (.ok (), s)).2.events) := by
          by_cases ht : truthy dip = true
          · simp only [ht, if_true]
            exact guardItem_assoc iid _ s
              (fun s0 h0 => uploadFromKey_assoc iid cfg orc domain "ip" s0 h0) h
          · simp only [Bool.not_eq_true] at ht
            simp only [ht, Bool.false_eq_true, if_false]
            exact h
        split
        · rename_i e s1 heq
          rw [heq] at hif
          exact hif
        · rename_i u0 s1 heq
          rw [heq] at hif
          rcases hdm : pyGet domain "domain" with e | dm <;> simp only [hdm]
          · exact hif
          · have hif2 : commitsAssociated iid
                ((if truthy dm
                  then guardItem (uploadFromKey cfg orc iid domain "domain") s1
                  else (.ok (), s1)).2.events) := by
              by_cases ht : truthy dm = true
              · simp only [ht, if_true]
                exact guardItem_assoc iid _ s1
                  (fun s0 h0 => uploadFromKey_assoc iid cfg orc domain "domain" s0 h0) hif
              · simp only [Bool.not_eq_true] at ht
                simp only [ht, Bool.false_eq_true, if_false]
                exact hif
            split
            · rename_i e2 s2 heq2
              rw [heq2] at hif2
              exact hif2
            · rename_i u2 s2 heq2
              rw [heq2] at hif2
              exact ih s2 hif2

theorem import_network_domains_assoc (iid : Int) (cfg : Config)
    (orc : Nat → Option String) (results : PyVal) (s : RunState)
    (h : commitsAssociated iid s.events) :
    commitsAssociated iid (import_network_domains cfg orc results iid s).2.events := by
  rcases hnet : pyGetD results "network" (.dict []) with e | net <;>
    simp only [import_network_domains, hnet]
  · exact h
  · rcases hcoll : pyGetD net "domains" (.dict []) with e | coll <;> simp only [hcoll]
    · exact h
    · rcases hit : pyIter coll with e | items <;> simp only [hit]
      · exact h
      · exact importDomainList_assoc iid cfg orc items s h

theorem import_file_assoc (iid : Int) (cfg : Config)
    (orc : Nat → Option String) (results : PyVal) (s : RunState)
    (h : commitsAssociated iid s.events) :
    commitsAssociated iid (import_file cfg orc results iid s).2.events := by
  rcases ht : pyGet results "target" with e | t <;> simp only [import_file, ht]
  · exact h
  · rcases hc : pyGet t "category" with e | cat <;> simp only [hc]
    · exact h
    · by_cases hf : pyEqStr cat "file" = true
      · simp only [hf, if_true]
        rcases hfd : pyGet t "file" with e | fd <;> simp only [hfd]
        · exact h
        · by_cases htr : truthy fd = true
          · simp only [htr, if_true]
            rcases h5 : pyGet fd "md5" with e | md5 <;> simp only [h5]
            · exact h
            · have h1 : commitsAssociated iid
                  (addEvents s [.indicatorAdd md5 cfg.target_source]).events :=
                commitsAssociated_addEvents h (noCommit_events iid _ (by rfl))
              rcases h6 : pyGet fd "sha1" with e | sha1 <;> simp only [h6]
              · exact h1
              · have h2 : commitsAssociated iid
                    (addEvents (addEvents s [.indicatorAdd md5 cfg.target_source])
                      [.indicatorSetIndicator sha1]).events :=
                  commitsAssociated_addEvents h1 (noCommit_events iid _ (by rfl))
                rcases h7 : pyGet fd "sha256" with e | sha256 <;> simp only [h7]
                · exact h2
                · have h3 := commitsAssociated_addEvents h2
                    (noCommit_events iid [Event.indicatorSetIndicator sha256] (by rfl))
                  rcases h8 : pyGet fd "size" with e | size <;> simp only [h8]
                  · exact h3
                  · have h4 := commitsAssociated_addEvents h3
                      (noCommit_events iid [Event.indicatorSetSize size] (by rfl))
                    rcases h9 : pyGet results "info" with e | info <;> simp only [h9]
                    · exact h4
                    · rcases h10 : pyGet info "started" with e | started <;> simp only [h10]
                      · exact h4
                      · split
                        · exact h4
                        · rename_i occ heq
                          refine commitIndicatorChecked_assoc iid orc _ _ ?_ (by simp)
                          refine commitsAssociated_addEvents ?_
                            (noCommit_events iid _ (by rfl))
                          match occ with
                          | some o =>
                              exact commitsAssociated_addEvents h4
                                (noCommit_events iid _ (by rfl))
                          | Option.none => exact h4
          · simp only [Bool.not_eq_true] at htr
            simp only [htr, Bool.false_eq_true, if_false]
            exact h
      · simp only [Bool.not_eq_true] at hf
        simp only [hf, Bool.false_eq_true, if_false]
        exact h

theorem buildIncident_assoc (iid : Int) (cfg : Config) (results : PyVal) :
    commitsAssociated iid (buildIncident cfg results).2 := by
  unfold buildIncident
  repeat' split
  all_goals exact noCommit_events iid _ (by rfl)

theorem doCommitIncident_assoc (iid : Int) (orc : Nat → Option String)
    (obj : IncidentObj) (s : RunState)
    (h : commitsAssociated iid s.events) :
    commitsAssociated iid (doCommitIncident orc obj s).2.events := by
  unfold doCommitIncident
  cases orc s.nCommits <;>
    exact commitsAssociated_append h (noCommit_events iid _ (by rfl))

theorem create_incident_assoc (iid : Int) (cfg : Config)
    (orc : Nat → Option String) (results : PyVal) (s : RunState)
    (h : commitsAssociated iid s.events) :
    commitsAssociated iid (create_incident cfg orc results s).2.events := by
  have hb := buildIncident_assoc iid cfg results
  rcases hbi : buildIncident cfg results with ⟨e | obj, evs⟩ <;>
    rw [hbi] at hb <;> simp only [create_incident, hbi]
  · exact commitsAssociated_addEvents h hb
  · have h1 : commitsAssociated iid (addEvents s evs).events :=
      commitsAssociated_addEvents h hb
    split
    · rename_i e s2 heq
      have h2 := doCommitIncident_assoc iid orc obj (addEvents s evs) h1
      rw [heq] at h2
      exact h2
    · rename_i u s2 heq
      have h2 := doCommitIncident_assoc iid orc obj (addEvents s evs) h1
      rw [heq] at h2
      have h4 : commitsAssociated iid
          (addEvents (addEvents s2 [Event.incidentLoadAttributes])
            ((obj.attributes.filter
                (fun kv => kv.1 = "Analysis ID" || kv.1 = "Source")).map
              (fun kv => Event.attributeAddSecurityLabel kv.1 "DO NOT SHARE"))).events := by
        refine commitsAssociated_addEvents
          (commitsAssociated_addEvents h2 (noCommit_events iid _ (by rfl))) ?_
        intro obj2 o2 hm
        rcases List.mem_map.1 hm with ⟨kv, hkv1, hkv2⟩
        simp at hkv2
      split
      · rename_i e2 s5 heq2
        have hev2 := congrArg (fun p => p.2.events) heq2
        simp only at hev2
        rw [← hev2]
        exact doCommitIncident_assoc iid orc _ _ h4
      · rename_i u2 s5 heq2
        have hev2 := congrArg (fun p => p.2.events) heq2
        simp only at hev2
        rw [← hev2]
        exact doCommitIncident_assoc iid orc _ _ h4

theorem create_incident_ok_id (cfg : Config) (orc : Nat → Option String)
    (results : PyVal) (s : RunState) (i : Int) (s1 : RunState)
    (h : create_incident cfg orc results s = (.ok i, s1)) :
    i = cfg.newIncidentId := by
  rcases hbi : buildIncident cfg results with ⟨e | obj, evs⟩ <;>
    simp only [create_incident, hbi] at h
  · simp at h
  · split at h
    · simp at h
    · split at h
      · simp at h
      · have hfst := congrArg Prod.fst h
        simp at hfst
        exact hfst.symm

theorem run_commits_associated (cfg : Config) (orc : Nat → Option String)
    (results : PyVal) (s : RunState)
    (h : commitsAssociated cfg.newIncidentId s.events) :
    commitsAssociated cfg.newIncidentId (run cfg orc results s).2.events := by
  have hci := create_incident_assoc cfg.newIncidentId cfg orc results s h
  rcases hc : create_incident cfg orc results s with ⟨r, s1⟩
  rw [hc] at hci
  simp only [run, hc]
  match r with
  | .error e => exact hci
  | .ok i =>
      have hid := create_incident_ok_id cfg orc results s i s1 hc
      subst hid
      have h2 := import_network_assoc cfg.newIncidentId cfg orc results "udp" s1 hci
      rcases hn1 : import_network cfg orc results cfg.newIncidentId "udp" s1 with ⟨r2, s2⟩
      rw [hn1] at h2
      simp only [hn1]
      match r2 with
      | .error e => exact h2
      | .ok _ =>
          have h3 := import_network_assoc cfg.newIncidentId cfg orc results "tcp" s2 h2
          rcases hn2 : import_network cfg orc results cfg.newIncidentId "tcp" s2 with ⟨r3, s3⟩
          rw [hn2] at h3
          simp only [hn2]
          match r3 with
          | .error e => exact h3
          | .ok _ =>
              have h4 := import_network_http_assoc cfg.newIncidentId cfg orc results s3 h3
              rcases hn3 : import_network_http cfg orc results cfg.newIncidentId s3 with ⟨r4, s4⟩
              rw [hn3] at h4
              simp only [hn3]
              match r4 with
              | .error e => exact h4
              | .ok _ =>
                  have h5 := import_network_hosts_assoc cfg.newIncidentId cfg orc results s4 h4
                  rcases hn4 : import_network_hosts cfg orc results cfg.newIncidentId s4 with ⟨r5, s5⟩
                  rw [hn4] at h5
                  simp only [hn4]
                  match r5 with
                  | .error e => exact h5
                  | .ok _ =>
                      have h6 := import_network_dns_assoc cfg.newIncidentId cfg orc results s5 h5
                      rcases hn5 : import_network_dns cfg orc results cfg.newIncidentId s5 with ⟨r6, s6⟩
                      rw [hn5] at h6
                      simp only [hn5]
                      match r6 with
                      | .error e => exact h6
                      | .ok _ =>
                          have h7 := import_network_domains_assoc cfg.newIncidentId cfg orc results s6 h6
                          rcases hn6 : import_network_domains cfg orc results cfg.newIncidentId s6 with ⟨r7, s7⟩
                          rw [hn6] at h7
                          simp only [hn6]
                          match r7 with
                          | .error e => exact h7
                          | .ok _ =>
                              have h8 := import_file_assoc cfg.newIncidentId cfg orc results s7 h7
                              rcases hn7 : import_file cfg orc results cfg.newIncidentId s7 with ⟨r8, s8⟩
                              rw [hn7] at h8
                              simp only [hn7]
                              match r8 with
                              | .ok _ => exact h8
                              | .error e =>
                                  by_cases hce : isCuckooOrRuntime e = true <;>
                                    simp only [hce, if_true, if_false] <;> exact h8

/-- C9 (confirmed): every indicator whose commit is attempted against the
remote platform during a run — via `upload_indicator` or via the file
extractor — carries, in the committed object, an association to the run's
incident id (the id returned by `create_incident`); no indicator commit
happens without that association. -/
theorem indicator_commits_associated (cfg : Config) (orc : Nat → Option String)
    (results : PyVal) (obj : IndicatorObj) (o : Option String)
    (hmem : Event.indicatorCommit obj o ∈ (run cfg orc results initState).2.events) :
    cfg.newIncidentId ∈ obj.associations := by
  refine run_commits_associated cfg orc results initState ?_ obj o hmem
  intro obj2 o2 hm
  simp [initState] at hm

/-- Witness for C9: in the concrete scenario run, the DNS-request
indicator commit occurs in the trace, and the theorem applies to it. -/
theorem indicator_commits_associated_witness :
    (Event.indicatorCommit
        { value := .str "example.com", source := "acme", secondary := [],
          size := Option.none, occurrences := [], associations := [1] }
        Option.none ∈ (run cfgA orcOK resultsScenario initState).2.events) ∧
    cfgA.newIncidentId ∈
      ({ value := .str "example.com", source := "acme", secondary := [],
         size := Option.none, occurrences := [],
         associations := [1] } : IndicatorObj).associations := by
  have hm : Event.indicatorCommit
      { value := .str "example.com", source := "acme", secondary := [],
        size := Option.none, occurrences := [], associations := [1] }
      Option.none ∈ (run cfgA orcOK resultsScenario initState).2.events := by
    rw [runScenario_eq]
    simp [scenarioOutput]
  exact ⟨hm, indicator_commits_associated cfgA orcOK resultsScenario _ _ hm⟩

/-- Unfolding of `hasColonDigit` on a cons cell. -/
theorem hasColonDigit_cons (c : Char) (rest : List Char) :
    hasColonDigit (c :: rest) = ((c = ':' && digitHead rest) || hasColonDigit rest) := by
  cases rest <;> simp [hasColonDigit, digitHead]

/-- A character list in which `:` is never immediately followed by a digit
is left unchanged by the substitution. -/
theorem stripPortsAux_no_match (l : List Char) (h : hasColonDigit l = false) :
    stripPortsAux l = l := by
  induction l with
  | nil => simp [stripPortsAux]
  | cons c rest ih =>
      rw [hasColonDigit_cons] at h
      simp only [Bool.or_eq_false_iff] at h
      rw [stripPortsAux]
      simp only [h.1, Bool.false_eq_true, if_false, List.cons.injEq]
      exact ⟨trivial, ih h.2⟩

/-- Dropping digits from an all-digit list leaves nothing. -/
theorem digits_dropWhile_nil (l : List Char) (h : l.all Char.isDigit = true) :
    l.dropWhile Char.isDigit = [] := by
  induction l with
  | nil => simp [List.dropWhile]
  | cons c rest ih =>
      simp only [List.all_cons, Bool.and_eq_true] at h
      simp [List.dropWhile, h.1, ih h.2]

/-- A trailing `:<digits>` suffix after a match-free stem is removed
entirely by the substitution. -/
theorem stripPortsAux_suffix (p ds : List Char) (h1 : hasColonDigit p = false)
    (h2 : ds ≠ []) (h3 : ds.all Char.isDigit = true) :
    stripPortsAux (p ++ ':' :: ds) = p := by
  induction p with
  | nil =>
      match ds, h2 with
      | d :: ds2, _ =>
          have hdw := digits_dropWhile_nil (d :: ds2) h3
          have hd : d.isDigit = true := by
            simp only [List.all_cons, Bool.and_eq_true] at h3
            exact h3.1
          rw [List.nil_append, stripPortsAux]
          simp [digitHead, hd, hdw, stripPortsAux]
  | cons c p2 ih =>
      rw [hasColonDigit_cons] at h1
      simp only [Bool.or_eq_false_iff] at h1
      have hcond : (c = ':' && digitHead (p2 ++ ':' :: ds)) = false := by
        by_cases hc : c = ':'
        · simp only [hc] at h1 ⊢
          simp only [Bool.and_eq_false_iff] at h1 ⊢
          rcases h1.1 with hfalse | hdh
          · simp at hfalse
          · right
            cases p2 with
            | nil =>
                rw [List.nil_append, digitHead]
                decide
            | cons e q =>
                rw [List.cons_append, digitHead]
                rw [digitHead] at hdh
                exact hdh
        · simp [hc]
      rw [List.cons_append, stripPortsAux]
      simp only [hcond, Bool.false_eq_true, if_false, List.cons.injEq]
      exact ⟨trivial, ih h1.2⟩

/-- C7 (counterexample): `"a:1b"` has no trailing `:<digits>` suffix, yet
the normalization changes it to `"ab"` — the regex `:\d+` is unanchored
and removes a colon-digit run anywhere in the string. -/
theorem stripPorts_changes_nonsuffix_host :
    endsWithPort "a:1b" = false ∧ stripPorts "a:1b" = "ab" ∧ ("ab" : String) ≠ "a:1b" := by
  refine ⟨rfl, ?_, by decide⟩
  simp [stripPorts, stripPortsAux, digitHead, List.dropWhile]

/-- C7 (amended): the normalization removes every occurrence of `:`
followed by a maximal digit run, anywhere in the string; consequently a
string with no such occurrence is unchanged, and a string consisting of a
match-free stem followed by a trailing `:<digits>` suffix normalizes to
the stem. -/
theorem stripPorts_normalization :
    (∀ s : String, hasColonDigit s.data = false → stripPorts s = s) ∧
    (∀ p ds : String, hasColonDigit p.data = false → ds.data ≠ [] →
      ds.data.all Char.isDigit = true → stripPorts (p ++ ":" ++ ds) = p) := by
  constructor
  · intro s h
    unfold stripPorts
    rw [stripPortsAux_no_match s.data h]
  · intro p ds h1 h2 h3
    unfold stripPorts
    have hdata : (p ++ ":" ++ ds).data = p.data ++ ':' :: ds.data := by
      simp [String.data_append]
    rw [hdata, stripPortsAux_suffix p.data ds.data h1 h2 h3]

/-- Witness for C7: concrete instances of both halves of the amended
claim. -/
theorem stripPorts_normalization_witness :
    hasColonDigit "example.org".data = false ∧
    stripPorts "example.org" = "example.org" ∧
    hasColonDigit "host".data = false ∧ "8080".data ≠ [] ∧
    "8080".data.all Char.isDigit = true ∧
    stripPorts ("host" ++ ":" ++ "8080") = "host" := by
  refine ⟨by decide, stripPorts_normalization.1 "example.org" (by decide),
    by decide, by decide, by decide,
    stripPorts_normalization.2 "host" "8080" (by decide) (by decide) (by decide)⟩

/-- C8 (confirmed): `ip` never raises on a string — it returns exactly the
verdict of the IPv4/IPv6 literal parsers — and classifies representative
valid literals as true and the empty string, hostnames, URLs and malformed
quads as false. -/
theorem ip_classification_total :
    (∀ s : String, ip (.str s) = .ok (isIPv4 s || isIPv6 s)) ∧
    ip (.str "1.2.3.4") = .ok true ∧
    ip (.str "2001:db8::ff00:42:8329") = .ok true ∧
    ip (.str "::1") = .ok true ∧
    ip (.str "::ffff:1.2.3.4") = .ok true ∧
    ip (.str "") = .ok false ∧
    ip (.str "example.com") = .ok false ∧
    ip (.str "http://example.com/x") = .ok false ∧
    ip (.str "256.1.1.1") = .ok false ∧
    ip (.str "1.2.3.4.5") = .ok false := by
  exact ⟨ip_str_eval, rfl, rfl, rfl, rfl, rfl, rfl, rfl, rfl, rfl⟩

/-- Every branch of the incident build emits no indicator upload events. -/
theorem buildIncident_no_uploads (cfg : Config) (results : PyVal) :
    countUploadAttempts (buildIncident cfg results).2 = 0 := by
  unfold buildIncident
  repeat' split
  all_goals rfl

/-- C5 (confirmed): when the first commit of the run fails (the oracle
rejects commit index 0, which is `create_incident`'s first commit), the
run raises — with `CuckooReportError` whenever incident creation reached
the commit — and no extractor executes: zero indicator upload attempts
are recorded. -/
theorem incident_first_commit_failure_aborts_run
    (cfg : Config) (orc : Nat → Option String) (results : PyVal) (m : String)
    (h : orc 0 = some m) :
    (∃ e, (run cfg orc results initState).1 = .error e) ∧
    countUploadAttempts (run cfg orc results initState).2.events = 0 ∧
    (∀ obj evs, buildIncident cfg results = (.ok obj, evs) →
      (run cfg orc results initState).1 =
        .error (.cuckooReportError ("Failed to commit incident: " ++ m))) := by
  have hbu := buildIncident_no_uploads cfg results
  rcases hbi : buildIncident cfg results with ⟨e0 | obj, evs⟩ <;>
    rw [hbi] at hbu <;> simp only at hbu
  · have hcre : create_incident cfg orc results initState =
        (.error e0, addEvents initState evs) := by
      simp only [create_incident, hbi]
    refine ⟨⟨e0, by simp only [run, hcre]⟩, ?_, ?_⟩
    · simp only [run, hcre]
      simp only [addEvents, initState, List.nil_append]
      exact hbu
    · intro obj2 evs2 hcontra
      simp at hcontra
  · have hdc : doCommitIncident orc obj (addEvents initState evs) =
        (.error (.runtimeError m),
         { events := (addEvents initState evs).events ++
             [.incidentCommit obj (some m)],
           nCommits := (addEvents initState evs).nCommits + 1 }) := by
      unfold doCommitIncident
      have hn : (addEvents initState evs).nCommits = 0 := rfl
      rw [hn, h]
    have hcre : create_incident cfg orc results initState =
        (.error (.cuckooReportError ("Failed to commit incident: " ++ m)),
         { events := (addEvents initState evs).events ++
             [.incidentCommit obj (some m)],
           nCommits := (addEvents initState evs).nCommits + 1 }) := by
      simp only [create_incident, hbi, hdc, incidentCommitFail]
    refine ⟨⟨.cuckooReportError ("Failed to commit incident: " ++ m),
        by simp only [run, hcre]⟩, ?_, ?_⟩
    · simp only [run, hcre]
      simp only [addEvents, initState, List.nil_append, countUploadAttempts,
        List.filter_append]
      simp only [countUploadAttempts] at hbu
      simp [hbu, isIndicatorAdd]
    · intro obj2 evs2 hcontra
      simp only [run, hcre]

/-- Witness for C5: under the always-failing oracle, the scenario run
raises and records zero upload attempts. -/
theorem incident_first_commit_failure_aborts_run_witness :
    orcBoom 0 = some "boom" ∧
    (∃ e, (run cfgA orcBoom resultsScenario initState).1 = .error e) ∧
    countUploadAttempts (run cfgA orcBoom resultsScenario initState).2.events = 0 := by
  have happ := incident_first_commit_failure_aborts_run cfgA orcBoom
    resultsScenario "boom" rfl
  exact ⟨rfl, happ.1, happ.2.1⟩
